import Mathlib

/-!
Shallow embedding of the skies-weather-app frame engine.

Source files embedded here:
  * `src/utils/weatherTypes.js` — WMO code → weather-type classifier.
  * `src/utils/frameLoader.js` — naming-format detection, frame-count
    binary search, progress→frame mapping, URL building, preloading,
    with their module-level memoization maps.
  * `src/App.jsx` — the gesture/animation controller
    (`triggerTransition`, `runAnimation`).

JS numbers are modelled as `ℚ` (or `ℤ`/`ℕ` where the source only ever
holds integers); `Math.round x` is `⌊x + 1/2⌋`; the DOM image-probe
network is an oracle `String → Bool`; the module-level `Map`s are
association lists threaded through state-passing functions.
-/

namespace Skies

/-- JS `Math.round` for the nonnegative/general case: round half toward +∞. -/
def jsRound (q : ℚ) : ℤ := ⌊q + 1/2⌋

/-- `String(n).padStart(pad, "0")` from `buildUrl` (frameLoader.js line 78). -/
def padStart (s : String) (n : ℕ) (c : Char) : String :=
  if n ≤ s.length then s else String.mk (List.replicate (n - s.length) c) ++ s

/-- A naming-format candidate `{ prefix, pad, ext }` (frameLoader.js lines 33-44).
`pre` models the `prefix` field. -/
structure Fmt where
  pre : String
  pad : ℕ
  ext : String
deriving DecidableEq, Repr

/-- `FRAMES_BASE_PATH` (frameLoader.js line 29). -/
def FRAMES_BASE_PATH : String := "/frames"

/-- `DEFAULT_FRAME_COUNT` (frameLoader.js line 30). -/
def DEFAULT_FRAME_COUNT : ℕ := 1000

/-- `FORMAT_CANDIDATES` (frameLoader.js lines 33-44), in source order. -/
def FORMAT_CANDIDATES : List Fmt :=
  [ ⟨"frame_", 4, ".jpg"⟩
  , ⟨"ezgif-frame-", 3, ".jpg"⟩
  , ⟨"ezgif-frame-", 4, ".jpg"⟩
  , ⟨"frame-", 3, ".jpg"⟩
  , ⟨"frame-", 4, ".jpg"⟩
  , ⟨"", 4, ".jpg"⟩
  , ⟨"", 3, ".jpg"⟩
  , ⟨"frame_", 4, ".png"⟩
  , ⟨"ezgif-frame-", 3, ".png"⟩ ]

/-- `buildUrl(folderName, index, fmt)` (frameLoader.js lines 77-80). -/
def buildUrl (folderName : String) (index : ℤ) (fmt : Fmt) : String :=
  FRAMES_BASE_PATH ++ "/" ++ folderName ++ "/" ++ fmt.pre ++
    padStart (toString index) fmt.pad '0' ++ fmt.ext

/-- Association-list lookup standing in for `Map.get` /`Map.has`. -/
def alookup {α : Type} (m : List (String × α)) (k : String) : Option α :=
  match m with
  | [] => none
  | (k', v) :: rest => if k' = k then some v else alookup rest k

/-- The frameLoader module state: `folderFormats`, `folderFrameCounts`,
`frameCache` (frameLoader.js lines 47-53).  The cache stores the set of
loaded URLs (the image handle itself carries no further information we
need). -/
structure LoaderState where
  formats : List (String × Option Fmt)
  counts : List (String × ℕ)
  cache : List String
deriving Repr

/-- `progressToFrameSync(progress, folderName)` (frameLoader.js lines 147-150):
`Math.max(1, Math.min(total, Math.round(progress * total)))` where `total`
is the cached count or `DEFAULT_FRAME_COUNT`. -/
def progressToFrameSync (st : LoaderState) (progress : ℚ) (folderName : String) : ℤ :=
  let total : ℕ := (alookup st.counts folderName).getD DEFAULT_FRAME_COUNT
  max 1 (min (total : ℤ) (jsRound (progress * total)))

/-- The spec's words for the progress mapping: `clamp(round(progress * n), 1, n)`.
Written from the spec, not from the source, for the refinement comparison in C1. -/
def specClamp (x lo hi : ℤ) : ℤ := max lo (min hi x)

/-- `getWeatherType(code)` (weatherTypes.js lines 13-24).  The argument is a
JS number, modelled as `ℚ` so that non-integer codes are covered. -/
def getWeatherType (code : ℚ) : String :=
  if code = 0 then "sunny"
  else if code ≤ 2 then "cloudy"
  else if code = 3 then "cloudy"
  else if code ≤ 49 then "foggy"
  else if code ≤ 67 then "rainy"
  else if code ≤ 77 then "snowy"
  else if code ≤ 82 then "rainy"
  else if code ≤ 86 then "snowy"
  else if code ≤ 99 then "rainy"
  else "cloudy"

/-- `getTransitionKey(fromType, toType)` (weatherTypes.js lines 28-31). -/
def getTransitionKey (fromType toType : String) : Option String :=
  if fromType = toType then none
  else some (fromType ++ "_to_" ++ toType)

/-! ### Format detection (frameLoader.js lines 59-108)

The DOM image probe (`probeUrl`) is modelled as an oracle
`probe : String → Bool` giving the success of loading each URL.  A
sequential (non-overlapping) call to `detectFormat` is a state-passing
function that also reports how many probes it issued. -/

/-- The `for (const fmt of FORMAT_CANDIDATES)` loop body of `detectFormat`
(frameLoader.js lines 62-70): first match wins; returns the result and the
number of probes issued. -/
def detectLoop (probe : String → Bool) (folderName : String) :
    List Fmt → Option Fmt × ℕ
  | [] => (none, 0)
  | fmt :: rest =>
    if probe (buildUrl folderName 1 fmt) then (some fmt, 1)
    else
      let r := detectLoop probe folderName rest
      (r.1, r.2 + 1)

/-- `detectFormat(folderName)` (frameLoader.js lines 59-75): returns the
cached entry when present (zero probes), otherwise runs the candidate loop
and memoizes the outcome (also the `null` outcome).  Result:
(detected format, new module state, probes issued by this call). -/
def detectFormat (probe : String → Bool) (st : LoaderState) (folderName : String) :
    Option Fmt × LoaderState × ℕ :=
  match alookup st.formats folderName with
  | some r => (r, st, 0)
  | none =>
    let r := detectLoop probe folderName FORMAT_CANDIDATES
    (r.1, { st with formats := (folderName, r.1) :: st.formats }, r.2)

/-- `checkFolderExists(folderName)` (frameLoader.js lines 105-108):
`detectFormat` then `fmt !== null`. -/
def checkFolderExists (probe : String → Bool) (st : LoaderState) (folderName : String) :
    Bool × LoaderState × ℕ :=
  let r := detectFormat probe st folderName
  (r.1.isSome, r.2.1, r.2.2)

/-- `getFrameUrl(folderName, frameIndex)` (frameLoader.js lines 95-99). -/
def getFrameUrl (st : LoaderState) (folderName : String) (frameIndex : ℤ) : Option String :=
  match alookup st.formats folderName with
  | some (some fmt) => some (buildUrl folderName frameIndex fmt)
  | _ => none

/-! ### Frame-count binary search (frameLoader.js lines 115-134) -/

/-- The `while (lo <= hi)` binary-search loop of `getFolderFrameCount`
(frameLoader.js lines 124-129), with the probe already specialised to an
index predicate.  JS numbers are modelled as `ℤ` (all values reached here
are integral; `Math.floor((lo+hi)/2)` on nonnegative operands is integer
division). -/
def frameSearch (probe : ℤ → Bool) (lo hi count : ℤ) : ℤ :=
  if h : lo ≤ hi then
    if probe ((lo + hi) / 2) then frameSearch probe ((lo + hi) / 2 + 1) hi ((lo + hi) / 2)
    else frameSearch probe lo ((lo + hi) / 2 - 1) count
  else count
termination_by (hi + 1 - lo).toNat
decreasing_by all_goals omega

/-- `getFolderFrameCount(folderName)` (frameLoader.js lines 115-134):
cached count if present; `DEFAULT_FRAME_COUNT` when the folder format is
absent or `null`; otherwise binary search over 1..2000 starting from
`count = DEFAULT_FRAME_COUNT`, memoizing the result. -/
def getFolderFrameCount (probe : String → Bool) (st : LoaderState) (folderName : String) :
    ℕ × LoaderState :=
  match alookup st.counts folderName with
  | some n => (n, st)
  | none =>
    match alookup st.formats folderName with
    | some (some fmt) =>
      let count :=
        (frameSearch (fun i => probe (buildUrl folderName i fmt)) 1 2000 DEFAULT_FRAME_COUNT).toNat
      (count, { st with counts := (folderName, count) :: st.counts })
    | _ => (DEFAULT_FRAME_COUNT, st)

/-! ### Preloading (frameLoader.js lines 155-173) -/

/-- The closed integer range `[a, b]` as a list, for the
`for (let i = startFrame; i <= endFrame; i++)` loop. -/
def intRange (a b : ℤ) : List ℤ :=
  (List.range (b + 1 - a).toNat).map (fun k : ℕ => a + (k : ℤ))

/-- `preloadFrameRange(folderName, startFrame, endFrame)` (frameLoader.js
lines 155-173).  The synchronous loop checks `frameCache.has(url)` against
the cache as it stood when the loop ran (the `onload` insertions happen
strictly later on the event loop), creating one promise per uncached URL.
Each such promise settles with the image on success and with `null` on
error — it never rejects, so `Promise.all` always resolves
(`Except.ok`).  `loadOk` is the oracle saying which URLs load. -/
def preloadFrameRange (loadOk : String → Bool) (st : LoaderState) (folderName : String)
    (startFrame endFrame : ℤ) : Except Unit (List (Option String)) × LoaderState :=
  match alookup st.formats folderName with
  | some (some fmt) =>
    let urls := (intRange startFrame endFrame).map (fun i => buildUrl folderName i fmt)
    let attempts := urls.filter (fun u => decide (u ∉ st.cache))
    let results := attempts.map (fun u => if loadOk u then some u else none)
    (Except.ok results, { st with cache := st.cache ++ attempts.filter loadOk })
  | _ => (Except.ok [], st)

/-! ### The gesture/animation controller (App.jsx)

`App.jsx` keeps the live values in refs (`activeDayRef`, `progressRef`,
`animFromRef`, `animTargetRef`, `animStartRef`, `isAnimatingRef`,
`animRef`) and mirrors `activeDay`/`progress` into React state for
re-renders; the model keeps a single copy of each.  The browser's
animation-frame queue is modelled as the list `pending` of scheduled
callback handles, with `nextHandle` the next fresh handle;
`requestAnimationFrame` appends a fresh handle and
`cancelAnimationFrame h` removes `h` (a no-op for `null` or an
already-fired handle, as in the DOM). -/

/-- `TRANSITION_DURATION` (App.jsx line 18). -/
def TRANSITION_DURATION : ℚ := 1400

/-- `easeInOut(t)` (App.jsx lines 13-15). -/
def easeInOut (t : ℚ) : ℚ :=
  if t < 1/2 then 4 * t ^ 3 else 1 - (-2 * t + 2) ^ 3 / 2

/-- The controller state of `App.jsx` (refs plus the modelled
animation-frame queue). -/
structure AppState where
  activeDay : ℕ
  progress : ℚ
  animFrom : ℚ
  animTarget : ℚ
  animStart : Option ℚ
  isAnimating : Bool
  animHandle : Option ℕ
  pending : List ℕ
  nextHandle : ℕ
deriving Repr, DecidableEq

/-- `cancelAnimationFrame(animRef.current)` (App.jsx line 135): removes the
tracked handle from the browser queue; no-op when `animRef.current` is
`null` (the ref itself is not cleared by cancellation). -/
def cancelAnim (s : AppState) : AppState :=
  { s with
    pending :=
      match s.animHandle with
      | some h => s.pending.filter (fun x => x ≠ h)
      | none => s.pending }

/-- `triggerTransition(direction, numDays)` (App.jsx lines 131-152). -/
def triggerTransition (s : AppState) (direction : ℤ) (numDays : ℕ) : AppState :=
  let day := s.activeDay
  let s1 := cancelAnim s
  if direction > 0 ∧ day < numDays - 1 then
    { s1 with
      animFrom := s.progress
      animTarget := 1
      animStart := none
      isAnimating := true
      animHandle := some s1.nextHandle
      pending := s1.pending ++ [s1.nextHandle]
      nextHandle := s1.nextHandle + 1 }
  else if direction < 0 ∧ day > 0 then
    { s1 with activeDay := day - 1, progress := 0 }
  else s1

/-- The `if (!animStartRef.current) animStartRef.current = timestamp` step
of `runAnimation` (App.jsx line 95), including the JS falsy quirk that a
stored `0` counts as unset. -/
def startTime (s : AppState) (timestamp : ℚ) : ℚ :=
  match s.animStart with
  | some t0 => if t0 = 0 then timestamp else t0
  | none => timestamp

/-- The interpolated progress value `newProg` computed by one execution of
the `runAnimation` callback body at a given timestamp (App.jsx
lines 96-101). -/
def tickProgress (s : AppState) (timestamp : ℚ) : ℚ :=
  let rawT := min ((timestamp - startTime s timestamp) / TRANSITION_DURATION) 1
  s.animFrom + (s.animTarget - s.animFrom) * easeInOut rawT

/-- One firing of the scheduled `runAnimation` callback (App.jsx
lines 94-127) at `timestamp`: the fired handle leaves the browser queue;
if `rawT < 1` the progress is updated and a new frame is requested;
otherwise the run completes (`isAnimating := false`, `animRef := null`),
advancing the day when the target was `1` and resetting progress to 0. -/
def runAnimationTick (s : AppState) (timestamp : ℚ) : AppState :=
  let pend0 :=
    match s.animHandle with
    | some h => s.pending.filter (fun x => x ≠ h)
    | none => s.pending
  let start := startTime s timestamp
  let rawT := min ((timestamp - start) / TRANSITION_DURATION) 1
  let newProg := s.animFrom + (s.animTarget - s.animFrom) * easeInOut rawT
  if rawT < 1 then
    { s with
      animStart := some start
      progress := newProg
      animHandle := some s.nextHandle
      pending := pend0 ++ [s.nextHandle]
      nextHandle := s.nextHandle + 1 }
  else if s.animTarget = 1 then
    { s with
      animStart := some start
      isAnimating := false
      animHandle := none
      activeDay := s.activeDay + 1
      progress := 0
      pending := pend0 }
  else
    { s with
      animStart := some start
      isAnimating := false
      animHandle := none
      progress := 0
      pending := pend0 }

/-- The browser-queue bookkeeping invariant relating `animRef` to the
modelled animation-frame queue: every queued callback is the one the ref
tracks, at most one callback is queued, and the tracked handle was issued
in the past. -/
def GoodHandles (s : AppState) : Prop :=
  (∀ h ∈ s.pending, s.animHandle = some h) ∧ s.pending.length ≤ 1 ∧
    (∀ h, s.animHandle = some h → h < s.nextHandle)

/-- A quiescent controller: no tween in flight and no stale queued
callback.  This is the situation in which `triggerTransition` is ever
invoked, because every input handler returns early while
`isAnimatingRef.current` is set (App.jsx lines 167, 190, 196). -/
def Quiescent (s : AppState) : Prop :=
  s.isAnimating = false ∧ (∀ h, s.animHandle = some h → h ∉ s.pending)

/-! ### Overlapping (concurrent) format resolution

`detectFormat` only consults and writes `folderFormats` — there is no
in-flight-promise map in frameLoader.js.  To settle the concurrency
claim we model the event loop explicitly: a call that misses the cache
becomes a task holding its remaining candidate list; tasks interleave by
steps, each step performing one awaited probe.  `probeLog` records the
caller id of every probe issued. -/

/-- An in-flight `detectFormat` call past its synchronous cache check. -/
structure DTask where
  caller : ℕ
  folder : String
  rest : List Fmt
deriving Repr, DecidableEq

/-- Event-loop state for overlapping `detectFormat` calls. -/
structure DSys where
  formats : List (String × Option Fmt)
  tasks : List DTask
  probeLog : List ℕ
deriving Repr, DecidableEq

/-- A caller invokes `detectFormat`: the synchronous
`folderFormats.has(folderName)` check (frameLoader.js line 60) either
answers from the cache at once, or enqueues a task that will probe the
full candidate list. -/
def startDetect (sys : DSys) (caller : ℕ) (folderName : String) : DSys :=
  match alookup sys.formats folderName with
  | some _ => sys
  | none => { sys with tasks := sys.tasks ++ [⟨caller, folderName, FORMAT_CANDIDATES⟩] }

/-- One event-loop step: the front task resumes after its awaited probe
(frameLoader.js lines 62-74).  A match memoizes the format and completes;
a miss re-queues the task on the remaining candidates; an exhausted task
memoizes `null` and completes. -/
def stepFirstTask (probe : String → Bool) (sys : DSys) : DSys :=
  match sys.tasks with
  | [] => sys
  | t :: rest =>
    match t.rest with
    | [] => { sys with formats := (t.folder, none) :: sys.formats, tasks := rest }
    | fmt :: more =>
      if probe (buildUrl t.folder 1 fmt) then
        { sys with
          formats := (t.folder, some fmt) :: sys.formats
          tasks := rest
          probeLog := sys.probeLog ++ [t.caller] }
      else
        { sys with
          tasks := rest ++ [⟨t.caller, t.folder, more⟩]
          probeLog := sys.probeLog ++ [t.caller] }

/-! ### Concrete scenario states -/

/-- Loader state of the C9 scenario: `sunny_to_rainy` resolved to
`frame_` + 4-digit + `.jpg` with a cached count of 800. -/
def stC9 : LoaderState :=
  ⟨[("sunny_to_rainy", some ⟨"frame_", 4, ".jpg"⟩)], [("sunny_to_rainy", 800)], []⟩

/-- A loader state with `sunny` resolved but its count not yet probed. -/
def stW2 : LoaderState :=
  ⟨[("sunny", some ⟨"frame_", 4, ".jpg"⟩)], [], []⟩

/-- The empty loader state (module just loaded). -/
def stEmpty : LoaderState := ⟨[], [], []⟩

/-- A loader state with a cached count of 10 for `sunny`. -/
def stW1 : LoaderState := ⟨[], [("sunny", 10)], []⟩

/-- The empty event-loop state for overlapping resolution runs. -/
def sysEmpty : DSys := ⟨[], [], []⟩

/-- Probe oracle under which exactly the first candidate's first-frame URL
for folder `sunny` exists. -/
def probeFirstHit : String → Bool :=
  fun u => u == buildUrl "sunny" 1 ⟨"frame_", 4, ".jpg"⟩

/-- Two overlapping `detectFormat` calls for `sunny` (callers 0 and 1),
both starting before either completes, then both running to completion. -/
def overlapRun : DSys :=
  stepFirstTask probeFirstHit
    (stepFirstTask probeFirstHit (startDetect (startDetect sysEmpty 0 "sunny") 1 "sunny"))

/-- A mid-flight controller state used to instantiate the animation
theorems: day 0 of 3, progress 1/4, a tween toward 1 in flight with
handle 5 queued. -/
def sDemo : AppState :=
  { activeDay := 0, progress := 1/4, animFrom := 0, animTarget := 1,
    animStart := some 100, isAnimating := true, animHandle := some 5,
    pending := [5], nextHandle := 6 }

/-- A quiescent controller state on the last day (day 2 of 3). -/
def sLast : AppState :=
  { activeDay := 2, progress := 0, animFrom := 0, animTarget := 0,
    animStart := none, isAnimating := false, animHandle := none,
    pending := [], nextHandle := 3 }

/-- A quiescent controller state on day 1 of 3. -/
def sMid : AppState :=
  { activeDay := 1, progress := 0, animFrom := 0, animTarget := 0,
    animStart := none, isAnimating := false, animHandle := none,
    pending := [], nextHandle := 3 }

/-- A quiescent controller state on the first day (day 0 of 3). -/
def sFirst : AppState :=
  { activeDay := 0, progress := 0, animFrom := 0, animTarget := 0,
    animStart := none, isAnimating := false, animHandle := none,
    pending := [], nextHandle := 3 }

/-! ## Helper lemmas -/

theorem jsRound_mono {p q : ℚ} (h : p ≤ q) : jsRound p ≤ jsRound q :=
  Int.floor_mono (by linarith)

theorem jsRound_zero : jsRound 0 = 0 := by
  unfold jsRound
  norm_num

theorem jsRound_natCast (n : ℕ) : jsRound n = n := by
  unfold jsRound
  rw [Int.floor_eq_iff]
  push_cast
  constructor <;> linarith

theorem progressToFrameSync_eq (st : LoaderState) (folderName : String) (n : ℕ) (p : ℚ)
    (hl : alookup st.counts folderName = some n) :
    progressToFrameSync st p folderName = max 1 (min (n : ℤ) (jsRound (p * n))) := by
  simp [progressToFrameSync, hl]

/-! ## C1 -/

/-- C1: for every progress `p ∈ [0,1]` and cached frame count `n ≥ 1`,
`progressToFrameSync` returns `clamp(round(p*n), 1, n)`; the result is in
`[1, n]`, progress 0 maps to 1, progress 1 maps to `n`, and the mapping is
monotone non-decreasing in progress.  The embedded function is pure: it
reads the cached count and performs no state change. -/
theorem C1_progress_mapping (st : LoaderState) (folderName : String) (n : ℕ) (p : ℚ)
    (hl : alookup st.counts folderName = some n) (hn : 1 ≤ n)
    (hp0 : 0 ≤ p) (hp1 : p ≤ 1) :
    progressToFrameSync st p folderName = specClamp (jsRound (p * n)) 1 n ∧
    1 ≤ progressToFrameSync st p folderName ∧
    progressToFrameSync st p folderName ≤ n ∧
    (p = 0 → progressToFrameSync st p folderName = 1) ∧
    (p = 1 → progressToFrameSync st p folderName = n) ∧
    ∀ p' : ℚ, p ≤ p' → progressToFrameSync st p folderName ≤ progressToFrameSync st p' folderName := by
  have hnz : (1 : ℤ) ≤ (n : ℤ) := by exact_mod_cast hn
  refine ⟨?_, ?_, ?_, ?_, ?_, ?_⟩
  · rw [progressToFrameSync_eq st folderName n p hl]
    rfl
  · rw [progressToFrameSync_eq st folderName n p hl]
    exact le_max_left _ _
  · rw [progressToFrameSync_eq st folderName n p hl]
    exact max_le hnz (min_le_left _ _)
  · intro h0
    subst h0
    rw [progressToFrameSync_eq st folderName n 0 hl]
    rw [zero_mul, jsRound_zero]
    rw [min_eq_right (by linarith)]
    simp
  · intro h1
    subst h1
    rw [progressToFrameSync_eq st folderName n 1 hl]
    rw [one_mul, jsRound_natCast, min_self]
    exact max_eq_right hnz
  · intro p' hpp'
    rw [progressToFrameSync_eq st folderName n p hl,
      progressToFrameSync_eq st folderName n p' hl]
    refine max_le_max le_rfl (min_le_min le_rfl ?_)
    exact jsRound_mono (mul_le_mul_of_nonneg_right hpp' (by positivity))

/-- Witness for C1 at `n = 10`, `p = 1/2`. -/
theorem C1_progress_mapping_witness :
    1 ≤ progressToFrameSync stW1 (1/2) "sunny" ∧
    progressToFrameSync stW1 (1/2) "sunny" ≤ 10 := by
  have h := C1_progress_mapping stW1 "sunny" 10 (1/2) rfl (by norm_num)
    (by norm_num) (by norm_num)
  exact ⟨h.2.1, h.2.2.1⟩

/-! ## C10 -/

/-- C10: `getWeatherType` is total over all numeric codes — it always
returns one of the six weather-type strings (so never `undefined`), and
every code above 99 falls back to `"cloudy"`. -/
theorem C10_weather_type_total (code : ℚ) :
    getWeatherType code ∈ ["sunny", "cloudy", "rainy", "snowy", "windy", "foggy"] ∧
    (99 < code → getWeatherType code = "cloudy") := by
  constructor
  · unfold getWeatherType
    split_ifs <;> simp
  · intro h
    unfold getWeatherType
    split_ifs with h1 h2 h3 h4 h5 h6 h7 h8 h9 <;> first | rfl | linarith

/-- Witness for C10 at code 150 (above 99, non-matching). -/
theorem C10_weather_type_total_witness : getWeatherType 150 = "cloudy" :=
  (C10_weather_type_total 150).2 (by norm_num)

/-! ## C9 -/

/-- C9: with `sunny_to_rainy` resolved to `frame_` + 4-digit + `.jpg` and a
cached frame count of 800, progress 0.5 maps to frame 400 and the produced
frame URL is `/frames/sunny_to_rainy/frame_0400.jpg`. -/
theorem C9_scenario_url :
    progressToFrameSync stC9 (1/2) "sunny_to_rainy" = 400 ∧
    getFrameUrl stC9 "sunny_to_rainy" (progressToFrameSync stC9 (1/2) "sunny_to_rainy") =
      some "/frames/sunny_to_rainy/frame_0400.jpg" := by
  have h : progressToFrameSync stC9 (1/2) "sunny_to_rainy" = 400 := by
    unfold progressToFrameSync stC9 alookup jsRound
    norm_num
  refine ⟨h, ?_⟩
  rw [h]
  decide

/-! ## C2 -/

/-- Loop invariant of the frame-count binary search: with a contiguous
predicate of threshold `N`, the search over `[lo, hi]` returns `N`
whenever `lo ≤ N + 1 ≤ hi + 1`, probes stay inside `[1, 2000]`, and the
running `count` already equals `N` once `lo` has passed `N`. -/
theorem frameSearch_spec (p : ℤ → Bool) (N : ℤ) (hN : N ≤ 2000)
    (hp : ∀ i : ℤ, 1 ≤ i → i ≤ 2000 → (p i = true ↔ i ≤ N)) :
    ∀ fuel : ℕ, ∀ lo hi count : ℤ, (hi + 1 - lo).toNat ≤ fuel →
      1 ≤ lo → lo ≤ N + 1 → N ≤ hi → hi ≤ 2000 → (N < lo → count = N) →
      frameSearch p lo hi count = N := by
  intro fuel
  induction fuel with
  | zero =>
    intro lo hi count hf h1 h2 h3 h4 h5
    rw [frameSearch, dif_neg (by omega)]
    exact h5 (by omega)
  | succ m ih =>
    intro lo hi count hf h1 h2 h3 h4 h5
    by_cases hlh : lo ≤ hi
    · rw [frameSearch, dif_pos hlh]
      have hmlo : lo ≤ (lo + hi) / 2 := by omega
      have hmhi : (lo + hi) / 2 ≤ hi := by omega
      by_cases hpm : p ((lo + hi) / 2) = true
      · rw [if_pos hpm]
        have hmle : (lo + hi) / 2 ≤ N := (hp _ (by omega) (by omega)).mp hpm
        exact ih _ _ _ (by omega) (by omega) (by omega) h3 h4 (by omega)
      · rw [if_neg hpm]
        have hgt : N < (lo + hi) / 2 := by
          by_contra hc
          push_neg at hc
          exact hpm ((hp _ (by omega) (by omega)).mpr hc)
        exact ih _ _ _ (by omega) h1 h2 (by omega) (by omega) h5
    · rw [frameSearch, dif_neg hlh]
      exact h5 (by omega)

/-- C2: for a folder resolved to a naming format whose frames exist
exactly for indices `1..N` (the probe of frame `i` succeeds iff `i ≤ N`)
with `N` inside the probed bound `1..2000` and no cached count yet, the
binary search of `getFolderFrameCount` returns exactly `N` — in
particular for `N = 1`, `N = 237`, and `N = 1999`. -/
theorem C2_frame_count_exact (probe : String → Bool) (st : LoaderState)
    (folderName : String) (fmt : Fmt) (N : ℤ)
    (hc : alookup st.counts folderName = none)
    (hf : alookup st.formats folderName = some (some fmt))
    (h1 : 1 ≤ N) (h2 : N ≤ 2000)
    (hp : ∀ i : ℤ, 1 ≤ i → i ≤ 2000 →
      (probe (buildUrl folderName i fmt) = true ↔ i ≤ N)) :
    ((getFolderFrameCount probe st folderName).1 : ℤ) = N := by
  have hs : frameSearch (fun i => probe (buildUrl folderName i fmt)) 1 2000 DEFAULT_FRAME_COUNT = N :=
    frameSearch_spec _ N h2 hp 2000 1 2000 _ (by omega) le_rfl (by omega) h2 le_rfl
      (fun hlt => absurd hlt (by omega))
  unfold getFolderFrameCount
  rw [hc, hf]
  simp only [hs]
  omega

/-- Witness for C2: all 2000 probed frames exist, so the search returns
2000. -/
theorem C2_frame_count_exact_witness :
    ((getFolderFrameCount (fun _ => true) stW2 "sunny").1 : ℤ) = 2000 :=
  C2_frame_count_exact (fun _ => true) stW2 "sunny" ⟨"frame_", 4, ".jpg"⟩ 2000
    rfl rfl (by norm_num) le_rfl (fun i hi1 hi2 => by simpa using hi2)

/-! ## C3 -/

/-- After any `detectFormat` call the folder's outcome (including `null`)
is recorded in `folderFormats`. -/
theorem detectFormat_lookup (probe : String → Bool) (st : LoaderState) (folderName : String) :
    alookup (detectFormat probe st folderName).2.1.formats folderName =
      some (detectFormat probe st folderName).1 := by
  unfold detectFormat
  cases h : alookup st.formats folderName with
  | some r => simp [h]
  | none => simp [h, alookup]

/-- A `detectFormat` call that hits the cache returns the cached outcome,
leaves the state unchanged, and issues zero probes. -/
theorem detectFormat_cached (probe : String → Bool) (st : LoaderState) (folderName : String)
    (r : Option Fmt) (h : alookup st.formats folderName = some r) :
    detectFormat probe st folderName = (r, st, 0) := by
  unfold detectFormat
  rw [h]

/-- If every candidate's probe fails, the candidate loop reports no
format. -/
theorem detectLoop_allfail (probe : String → Bool) (folderName : String) :
    ∀ l : List Fmt, (∀ fmt ∈ l, probe (buildUrl folderName 1 fmt) = false) →
      (detectLoop probe folderName l).1 = none := by
  intro l
  induction l with
  | nil => intro _; rfl
  | cons fmt rest ih =>
    intro hall
    have hh := hall fmt (by simp)
    simp only [detectLoop, hh, Bool.false_eq_true, if_false]
    exact ih (fun f hf => hall f (by simp [hf]))

/-- C3: format resolution is idempotent and memoizes both outcomes — a
second `detectFormat` for the same folder returns the identical cached
result (also the `null` result) with the state unchanged and zero probes;
a folder matching no candidate is recorded as unresolved on first
resolution; and a second `checkFolderExists` answers from the cache with
zero probes. -/
theorem C3_format_resolution_idempotent (probe : String → Bool) (st : LoaderState)
    (folderName : String) :
    (detectFormat probe (detectFormat probe st folderName).2.1 folderName).1 =
      (detectFormat probe st folderName).1 ∧
    (detectFormat probe (detectFormat probe st folderName).2.1 folderName).2.1 =
      (detectFormat probe st folderName).2.1 ∧
    (detectFormat probe (detectFormat probe st folderName).2.1 folderName).2.2 = 0 ∧
    (alookup st.formats folderName = none →
      (∀ fmt ∈ FORMAT_CANDIDATES, probe (buildUrl folderName 1 fmt) = false) →
      (detectFormat probe st folderName).1 = none) ∧
    checkFolderExists probe (detectFormat probe st folderName).2.1 folderName =
      ((detectFormat probe st folderName).1.isSome, (detectFormat probe st folderName).2.1, 0) := by
  have h2 := detectFormat_cached probe (detectFormat probe st folderName).2.1 folderName
    (detectFormat probe st folderName).1 (detectFormat_lookup probe st folderName)
  refine ⟨by rw [h2], by rw [h2], by rw [h2], ?_, ?_⟩
  · intro hnone hall
    unfold detectFormat
    rw [hnone]
    simp only
    exact detectLoop_allfail probe folderName FORMAT_CANDIDATES hall
  · unfold checkFolderExists
    rw [h2]

/-- Witness for C3: the `foggy` scenario — no candidate matches, the
first call records `null`, the second call issues zero probes. -/
theorem C3_format_resolution_idempotent_witness :
    (detectFormat (fun _ => false) stEmpty "foggy").1 = none ∧
    (detectFormat (fun _ => false)
      (detectFormat (fun _ => false) stEmpty "foggy").2.1 "foggy").2.2 = 0 :=
  ⟨(C3_format_resolution_idempotent (fun _ => false) stEmpty "foggy").2.2.2.1 rfl
      (fun _ _ => rfl),
    (C3_format_resolution_idempotent (fun _ => false) stEmpty "foggy").2.2.1⟩

/-! ## C7 -/

/-- C7 counterexample: `detectFormat` memoizes only after completion, so a
repeat call issued before the first call completes does restart probing.
In `overlapRun`, caller 1 invokes `detectFormat("sunny")` after caller 0
has begun but before caller 0's first probe resolves; the probe log ends
as `[0, 1]` — caller 1 issued its own probe (count 1, not the 0 the claim
requires for a sharing in-flight caller). -/
theorem C7_counterexample :
    overlapRun.probeLog = [0, 1] ∧ overlapRun.probeLog.count 1 ≠ 0 := by
  decide

/-- C7 amended: the memoization of format resolution takes effect only
once a resolution has completed — a call finding the folder cached
returns synchronously with no task and no probes, while a call finding
the folder uncached always enqueues its own full candidate probe
sequence, even when another resolution for the same folder is already in
flight. -/
theorem C7_memoize_after_completion_only :
    (∀ (sys : DSys) (caller : ℕ) (folderName : String) (r : Option Fmt),
        alookup sys.formats folderName = some r →
        startDetect sys caller folderName = sys) ∧
    (∀ (sys : DSys) (caller : ℕ) (folderName : String),
        alookup sys.formats folderName = none →
        startDetect sys caller folderName =
          { sys with tasks := sys.tasks ++ [⟨caller, folderName, FORMAT_CANDIDATES⟩] }) := by
  constructor
  · intro sys caller folderName r h
    unfold startDetect
    rw [h]
  · intro sys caller folderName h
    unfold startDetect
    rw [h]

/-- Witness for the amended C7: a cached folder answers with no new task;
an uncached folder enqueues a fresh full probe task. -/
theorem C7_memoize_after_completion_only_witness :
    startDetect ⟨[("sunny", some ⟨"frame_", 4, ".jpg"⟩)], [], []⟩ 7 "sunny" =
      ⟨[("sunny", some ⟨"frame_", 4, ".jpg"⟩)], [], []⟩ ∧
    startDetect sysEmpty 1 "sunny" = { sysEmpty with tasks := [⟨1, "sunny", FORMAT_CANDIDATES⟩] } :=
  ⟨C7_memoize_after_completion_only.1 _ 7 "sunny" _ rfl,
    C7_memoize_after_completion_only.2 sysEmpty 1 "sunny" rfl⟩

/-! ## C8 -/

theorem mem_intRange {a b i : ℤ} : i ∈ intRange a b ↔ a ≤ i ∧ i ≤ b := by
  unfold intRange
  rw [List.mem_map]
  constructor
  · rintro ⟨k, hk, rfl⟩
    rw [List.mem_range] at hk
    omega
  · intro h
    exact ⟨(i - a).toNat, List.mem_range.mpr (by omega), by omega⟩

/-- C8: for a resolved folder, `preloadFrameRange` attempts every
not-yet-cached frame index in the range and the batch always settles
successfully (`Except.ok`), individual failures notwithstanding: each
attempt's outcome (image or `null`) appears in the settled result list,
every frame whose load succeeds ends up in the cache, a frame whose load
fails is in the cache afterwards only if it already was before, and the
cache only grows. -/
theorem C8_preload_partial_failure (loadOk : String → Bool) (st : LoaderState)
    (folderName : String) (fmt : Fmt) (startFrame endFrame : ℤ)
    (hf : alookup st.formats folderName = some (some fmt)) :
    (∃ results,
      (preloadFrameRange loadOk st folderName startFrame endFrame).1 = Except.ok results ∧
      ∀ i : ℤ, startFrame ≤ i → i ≤ endFrame →
        buildUrl folderName i fmt ∉ st.cache →
        (if loadOk (buildUrl folderName i fmt) then some (buildUrl folderName i fmt)
          else none) ∈ results) ∧
    (∀ i : ℤ, startFrame ≤ i → i ≤ endFrame →
      (loadOk (buildUrl folderName i fmt) = true →
        buildUrl folderName i fmt ∈
          (preloadFrameRange loadOk st folderName startFrame endFrame).2.cache) ∧
      (loadOk (buildUrl folderName i fmt) = false →
        (buildUrl folderName i fmt ∈
            (preloadFrameRange loadOk st folderName startFrame endFrame).2.cache ↔
          buildUrl folderName i fmt ∈ st.cache))) ∧
    (∀ u ∈ st.cache,
      u ∈ (preloadFrameRange loadOk st folderName startFrame endFrame).2.cache) := by
  have heq : preloadFrameRange loadOk st folderName startFrame endFrame =
      (Except.ok
        ((((intRange startFrame endFrame).map (fun i => buildUrl folderName i fmt)).filter
            (fun u => decide (u ∉ st.cache))).map (fun u => if loadOk u then some u else none)),
        { st with cache := st.cache ++
            (((intRange startFrame endFrame).map (fun i => buildUrl folderName i fmt)).filter
              (fun u => decide (u ∉ st.cache))).filter loadOk }) := by
    unfold preloadFrameRange
    rw [hf]
  have hurl : ∀ i : ℤ, startFrame ≤ i → i ≤ endFrame →
      buildUrl folderName i fmt ∈
        (intRange startFrame endFrame).map (fun i => buildUrl folderName i fmt) := by
    intro i h1 h2
    exact List.mem_map.mpr ⟨i, mem_intRange.mpr ⟨h1, h2⟩, rfl⟩
  have hatt : ∀ i : ℤ, startFrame ≤ i → i ≤ endFrame →
      buildUrl folderName i fmt ∉ st.cache →
      buildUrl folderName i fmt ∈
        ((intRange startFrame endFrame).map (fun i => buildUrl folderName i fmt)).filter
          (fun u => decide (u ∉ st.cache)) := by
    intro i h1 h2 hnc
    exact List.mem_filter.mpr ⟨hurl i h1 h2, by simpa using hnc⟩
  refine ⟨?_, ?_, ?_⟩
  · refine ⟨_, by rw [heq], ?_⟩
    intro i h1 h2 hnc
    exact List.mem_map.mpr ⟨buildUrl folderName i fmt, hatt i h1 h2 hnc, rfl⟩
  · intro i h1 h2
    rw [heq]
    constructor
    · intro hok
      by_cases hmem : buildUrl folderName i fmt ∈ st.cache
      · exact List.mem_append.mpr (Or.inl hmem)
      · exact List.mem_append.mpr
          (Or.inr (List.mem_filter.mpr ⟨hatt i h1 h2 hmem, hok⟩))
    · intro hfail
      constructor
      · intro hmem
        rcases List.mem_append.mp hmem with hl | hr
        · exact hl
        · have := (List.mem_filter.mp hr).2
          rw [hfail] at this
          exact absurd this (by simp)
      · intro hmem
        exact List.mem_append.mpr (Or.inl hmem)
  · intro u hu
    rw [heq]
    exact List.mem_append.mpr (Or.inl hu)

/-- Witness for C8: in a batch over frames 1..2 of `sunny` where only
frame 1 loads, the batch leaves frame 1 cached and frame 2 uncached. -/
theorem C8_preload_partial_failure_witness :
    buildUrl "sunny" 1 ⟨"frame_", 4, ".jpg"⟩ ∈
      (preloadFrameRange probeFirstHit stW2 "sunny" 1 2).2.cache ∧
    (buildUrl "sunny" 2 ⟨"frame_", 4, ".jpg"⟩ ∈
        (preloadFrameRange probeFirstHit stW2 "sunny" 1 2).2.cache ↔
      buildUrl "sunny" 2 ⟨"frame_", 4, ".jpg"⟩ ∈ stW2.cache) :=
  ⟨((C8_preload_partial_failure probeFirstHit stW2 "sunny" ⟨"frame_", 4, ".jpg"⟩ 1 2
        rfl).2.1 1 (by norm_num) (by norm_num)).1 (by decide),
    ((C8_preload_partial_failure probeFirstHit stW2 "sunny" ⟨"frame_", 4, ".jpg"⟩ 1 2
        rfl).2.1 2 (by norm_num) (by norm_num)).2 (by decide)⟩

/-! ## Controller helper lemmas -/

theorem cube_le_cube {a b : ℚ} (h : a ≤ b) : a ^ 3 ≤ b ^ 3 := by
  nlinarith [sq_nonneg (a + b), sq_nonneg (a - b), sq_nonneg a, sq_nonneg b]

theorem easeInOut_mono {a b : ℚ} (hab : a ≤ b) : easeInOut a ≤ easeInOut b := by
  unfold easeInOut
  split_ifs with ha hb hb
  · have := cube_le_cube hab
    linarith
  · have h1 : a ^ 3 ≤ (1/2 : ℚ) ^ 3 := cube_le_cube (le_of_lt ha)
    have h2 : (-2 * b + 2) ^ 3 ≤ (1 : ℚ) ^ 3 := cube_le_cube (by linarith)
    norm_num at h1 h2
    linarith
  · linarith
  · have h1 : (-2 * b + 2) ^ 3 ≤ (-2 * a + 2) ^ 3 := cube_le_cube (by linarith)
    linarith

theorem easeInOut_zero : easeInOut 0 = 0 := by
  norm_num [easeInOut]

theorem cancelAnim_pending_nil (s : AppState) (hG : GoodHandles s) :
    (cancelAnim s).pending = [] := by
  obtain ⟨h1, _, _⟩ := hG
  unfold cancelAnim
  cases ha : s.animHandle with
  | none =>
    simp only
    refine List.eq_nil_iff_forall_not_mem.mpr (fun x hx => ?_)
    have := h1 x hx
    rw [ha] at this
    exact Option.noConfusion this
  | some h =>
    simp only
    refine List.filter_eq_nil_iff.mpr (fun x hx => ?_)
    have := h1 x hx
    rw [ha] at this
    simp [Option.some_inj.mp this]

theorem cancelAnim_eq_self (s : AppState)
    (hq : ∀ h, s.animHandle = some h → h ∉ s.pending) : cancelAnim s = s := by
  have hp : (match s.animHandle with
      | some h => s.pending.filter (fun x => x ≠ h)
      | none => s.pending) = s.pending := by
    cases ha : s.animHandle with
    | none => rfl
    | some h =>
      exact List.filter_eq_self.mpr (fun x hx => by
        have hne : x ≠ h := fun he => hq h ha (he ▸ hx)
        simpa using hne)
  unfold cancelAnim
  rw [hp]

theorem cancelAnim_pending_mem (s : AppState) (x : ℕ)
    (hx : x ∈ (cancelAnim s).pending) : x ∈ s.pending := by
  unfold cancelAnim at hx
  cases ha : s.animHandle with
  | none => rw [ha] at hx; exact hx
  | some h => rw [ha] at hx; exact (List.mem_filter.mp hx).1

theorem startTime_of_pos (s : AppState) (t t0 : ℚ) (hS : s.animStart = some t0)
    (ht0 : t0 ≠ 0) : startTime s t = t0 := by
  unfold startTime
  rw [hS]
  simp [ht0]

theorem runAnimationTick_inrun (s : AppState) (t t0 : ℚ) (hS : s.animStart = some t0)
    (ht0 : t0 ≠ 0) (hlt : min ((t - t0) / TRANSITION_DURATION) 1 < 1) :
    (runAnimationTick s t).progress = s.animFrom + (s.animTarget - s.animFrom) *
      easeInOut (min ((t - t0) / TRANSITION_DURATION) 1) := by
  have hst : startTime s t = t0 := startTime_of_pos s t t0 hS ht0
  simp only [runAnimationTick]
  rw [hst, if_pos hlt]

/-! ## C4 -/

/-- C4: at most one progress tween is ever in flight.  (i) A forward
trigger (with the browser-queue bookkeeping invariant) snapshots the live
progress into `animFrom`, clears the run's start timestamp, raises the
animating flag, leaves exactly one freshly scheduled callback in the
queue, and the previously tracked callback is cancelled — it is never
resumed.  (ii) The first tick of a restarted run resumes exactly from the
snapshot, not from any cancelled run's state.  (iii) During a forward
tween toward target 1 the progress value never decreases between
consecutive ticks. -/
theorem C4_single_tween_monotone :
    (∀ (s : AppState) (direction : ℤ) (numDays : ℕ),
      GoodHandles s → 0 < direction → s.activeDay < numDays - 1 →
      (triggerTransition s direction numDays).animFrom = s.progress ∧
      (triggerTransition s direction numDays).animTarget = 1 ∧
      (triggerTransition s direction numDays).animStart = none ∧
      (triggerTransition s direction numDays).isAnimating = true ∧
      (triggerTransition s direction numDays).pending = [s.nextHandle] ∧
      (∀ h, s.animHandle = some h → h ∉ (triggerTransition s direction numDays).pending)) ∧
    (∀ (s : AppState) (t : ℚ), s.animStart = none →
      (runAnimationTick s t).progress = s.animFrom) ∧
    (∀ (s : AppState) (t0 t1 t2 : ℚ),
      s.animTarget = 1 → s.animFrom ≤ 1 → s.animStart = some t0 → 0 < t0 →
      t0 ≤ t1 → t1 ≤ t2 → t1 < t0 + TRANSITION_DURATION →
      (runAnimationTick s t1).progress ≤ tickProgress (runAnimationTick s t1) t2 ∧
      (t2 < t0 + TRANSITION_DURATION →
        (runAnimationTick (runAnimationTick s t1) t2).progress =
          tickProgress (runAnimationTick s t1) t2)) := by
  refine ⟨?_, ?_, ?_⟩
  · intro s direction numDays hG hd hday
    have hpnil : (cancelAnim s).pending = [] := cancelAnim_pending_nil s hG
    have htrig : triggerTransition s direction numDays =
        { cancelAnim s with
          animFrom := s.progress, animTarget := 1, animStart := none,
          isAnimating := true, animHandle := some s.nextHandle,
          pending := [s.nextHandle], nextHandle := s.nextHandle + 1 } := by
      simp only [triggerTransition]
      rw [if_pos ⟨hd, hday⟩, hpnil]
      rfl
    refine ⟨by rw [htrig], by rw [htrig], by rw [htrig], by rw [htrig], by rw [htrig], ?_⟩
    intro h hh
    rw [htrig]
    have := hG.2.2 h hh
    simp only [List.mem_singleton]
    omega
  · intro s t hS
    have hst : startTime s t = t := by
      unfold startTime
      rw [hS]
    have h0 : min ((t - t) / TRANSITION_DURATION) (1 : ℚ) = 0 := by
      rw [sub_self, zero_div]
      exact min_eq_left zero_le_one
    simp only [runAnimationTick]
    rw [hst, h0, if_pos (by norm_num : (0 : ℚ) < 1), easeInOut_zero, mul_zero, add_zero]
  · intro s t0 t1 t2 hT hF hS ht0 h01 h12 hin
    have hTD : (0 : ℚ) < TRANSITION_DURATION := by norm_num [TRANSITION_DURATION]
    have hst1 : startTime s t1 = t0 := startTime_of_pos s t1 t0 hS (ne_of_gt ht0)
    have hr1 : min ((t1 - t0) / TRANSITION_DURATION) (1 : ℚ) < 1 :=
      min_lt_iff.mpr (Or.inl ((div_lt_one hTD).mpr (by linarith)))
    have htick : runAnimationTick s t1 = { s with
        animStart := some t0,
        progress := s.animFrom + (s.animTarget - s.animFrom) *
          easeInOut (min ((t1 - t0) / TRANSITION_DURATION) 1),
        animHandle := some s.nextHandle,
        pending := (match s.animHandle with
          | some h => s.pending.filter (fun x => x ≠ h)
          | none => s.pending) ++ [s.nextHandle],
        nextHandle := s.nextHandle + 1 } := by
      simp only [runAnimationTick]
      rw [hst1, if_pos hr1]
    have hst2 : startTime (runAnimationTick s t1) t2 = t0 := by
      refine startTime_of_pos _ _ _ ?_ (ne_of_gt ht0)
      rw [htick]
    have hfrom : (runAnimationTick s t1).animFrom = s.animFrom := by rw [htick]
    have htarget : (runAnimationTick s t1).animTarget = s.animTarget := by rw [htick]
    have hprog : (runAnimationTick s t1).progress = s.animFrom + (s.animTarget - s.animFrom) *
        easeInOut (min ((t1 - t0) / TRANSITION_DURATION) 1) := by rw [htick]
    have htp : tickProgress (runAnimationTick s t1) t2 =
        s.animFrom + (s.animTarget - s.animFrom) *
          easeInOut (min ((t2 - t0) / TRANSITION_DURATION) 1) := by
      unfold tickProgress
      rw [hst2, hfrom, htarget]
    constructor
    · rw [hprog, htp, hT]
      have hrle : min ((t1 - t0) / TRANSITION_DURATION) (1 : ℚ) ≤
          min ((t2 - t0) / TRANSITION_DURATION) 1 := by
        gcongr
      exact add_le_add_left
        (mul_le_mul_of_nonneg_left (easeInOut_mono hrle) (by linarith)) _
    · intro h2in
      have hr2 : min ((t2 - t0) / TRANSITION_DURATION) (1 : ℚ) < 1 :=
        min_lt_iff.mpr (Or.inl ((div_lt_one hTD).mpr (by linarith)))
      have hS2 : (runAnimationTick s t1).animStart = some t0 := by rw [htick]
      rw [runAnimationTick_inrun _ t2 t0 hS2 (ne_of_gt ht0) hr2, htp, hfrom, htarget]

/-- Witness for C4: a concrete mid-tween state (handle 5 queued) is
cancelled and restarted by a forward trigger; a first tick at any time
resumes from the snapshot; ticks at 300 and 600 of a run started at 100
do not decrease progress. -/
theorem C4_single_tween_monotone_witness :
    (triggerTransition sDemo 1 3).animFrom = sDemo.progress ∧
    (triggerTransition sDemo 1 3).pending = [6] ∧
    (runAnimationTick (triggerTransition sDemo 1 3) 50).progress = sDemo.progress ∧
    (runAnimationTick sDemo 300).progress ≤ tickProgress (runAnimationTick sDemo 300) 600 := by
  have h1 := C4_single_tween_monotone.1 sDemo 1 3
    ⟨by intro h hh; simp [sDemo] at hh ⊢; omega, by simp [sDemo],
      by intro h hh; simp [sDemo] at hh ⊢; omega⟩ (by norm_num) (by simp [sDemo])
  have h2 := C4_single_tween_monotone.2.1 (triggerTransition sDemo 1 3) 50 h1.2.2.1
  have h3 := (C4_single_tween_monotone.2.2 sDemo 100 300 600 (by simp [sDemo])
    (by norm_num [sDemo]) (by simp [sDemo]) (by norm_num) (by norm_num) (by norm_num)
    (by norm_num [TRANSITION_DURATION])).1
  refine ⟨h1.1, ?_, ?_, h3⟩
  · rw [h1.2.2.2.2.1]
    rfl
  · rw [h2, h1.1]

/-! ## C5 -/

/-- C5: backward navigation from a day `i > 0` is synchronous — in the
same step the active day becomes `i - 1` and progress becomes exactly 0,
the animating flag is untouched, and no animation run is started (no run
parameters change and no callback is scheduled). -/
theorem C5_backward_synchronous (s : AppState) (direction : ℤ) (numDays : ℕ)
    (hd : direction < 0) (hday : 0 < s.activeDay) :
    (triggerTransition s direction numDays).activeDay = s.activeDay - 1 ∧
    (triggerTransition s direction numDays).progress = 0 ∧
    (triggerTransition s direction numDays).isAnimating = s.isAnimating ∧
    (triggerTransition s direction numDays).animStart = s.animStart ∧
    (triggerTransition s direction numDays).animFrom = s.animFrom ∧
    (triggerTransition s direction numDays).nextHandle = s.nextHandle ∧
    (∀ h ∈ (triggerTransition s direction numDays).pending, h ∈ s.pending) := by
  have htrig : triggerTransition s direction numDays =
      { cancelAnim s with activeDay := s.activeDay - 1, progress := 0 } := by
    simp only [triggerTransition]
    rw [if_neg (by rintro ⟨h, -⟩; omega), if_pos ⟨hd, hday⟩]
  refine ⟨by simp [htrig, cancelAnim], by simp [htrig, cancelAnim], by simp [htrig, cancelAnim],
    by simp [htrig, cancelAnim], by simp [htrig, cancelAnim], by simp [htrig, cancelAnim], ?_⟩
  intro h hh
  rw [htrig] at hh
  exact cancelAnim_pending_mem s h hh

/-- Witness for C5: backward from day 1 of 3 lands on day 0 with progress
0 in one step. -/
theorem C5_backward_synchronous_witness :
    (triggerTransition sMid (-1) 3).activeDay = 0 ∧
    (triggerTransition sMid (-1) 3).progress = 0 := by
  have h := C5_backward_synchronous sMid (-1) 3 (by norm_num) (by norm_num [sMid])
  exact ⟨by rw [h.1]; rfl, h.2.1⟩

/-! ## C6 -/

/-- C6: a forward trigger from the last day is a no-op — active day,
progress, and animating flag unchanged, no animation run started, and
from a quiescent controller (the only situation in which the handlers
call it) the state is entirely unchanged; symmetrically a backward
trigger from the first day changes no state. -/
theorem C6_boundary_noop (s : AppState) (direction : ℤ) (numDays : ℕ) :
    (0 < direction → s.activeDay = numDays - 1 →
      (triggerTransition s direction numDays).activeDay = s.activeDay ∧
      (triggerTransition s direction numDays).progress = s.progress ∧
      (triggerTransition s direction numDays).isAnimating = s.isAnimating ∧
      (triggerTransition s direction numDays).nextHandle = s.nextHandle ∧
      (Quiescent s → triggerTransition s direction numDays = s)) ∧
    (direction < 0 → s.activeDay = 0 → Quiescent s →
      triggerTransition s direction numDays = s) := by
  constructor
  · intro hd hday
    have htrig : triggerTransition s direction numDays = cancelAnim s := by
      simp only [triggerTransition]
      rw [if_neg (by rintro ⟨-, h⟩; omega), if_neg (by rintro ⟨h, -⟩; omega)]
    refine ⟨by simp [htrig, cancelAnim], by simp [htrig, cancelAnim],
      by simp [htrig, cancelAnim], by simp [htrig, cancelAnim], ?_⟩
    intro hq
    rw [htrig]
    exact cancelAnim_eq_self s hq.2
  · intro hd hday hq
    have htrig : triggerTransition s direction numDays = cancelAnim s := by
      simp only [triggerTransition]
      rw [if_neg (by rintro ⟨h, -⟩; omega), if_neg (by rintro ⟨-, h⟩; omega)]
    rw [htrig]
    exact cancelAnim_eq_self s hq.2

/-- Witness for C6: forward from the last day (2 of 3) and backward from
the first day both leave the quiescent state exactly unchanged. -/
theorem C6_boundary_noop_witness :
    triggerTransition sLast 1 3 = sLast ∧ triggerTransition sFirst (-1) 3 = sFirst :=
  ⟨((C6_boundary_noop sLast 1 3).1 (by norm_num) rfl).2.2.2.2
      ⟨rfl, by intro h hh; simp [sLast] at hh⟩,
    (C6_boundary_noop sFirst (-1) 3).2 (by norm_num) rfl
      ⟨rfl, by intro h hh; simp [sFirst] at hh⟩⟩

end Skies
